import Mathlib

/-! Verification development for the non-towered-airport safety system repository.
    The repository consists of Next.js API routes and dashboard components
    (advisories, aircraft, weather, airports) and a Go ADS-B data-ingestion
    service.  The conflict-detection / advisory-manager engine that the design
    document specifies is declared in the README (backend/go/conflict_detection,
    backend/python/advisory_generation) but its source is not present; the parts
    of it that claims need are modelled from the spec and marked as such.

    Conventions of the shallow embedding: JS/Go floating-point numbers are
    modelled as ℚ; JS Date values (ISO timestamp strings, compared via their
    epoch value) are modelled as Int epoch milliseconds; Go int64 as Int;
    Math.random() draws and other wall-clock/randomness sources are passed as
    explicit parameters so that the dependence of each handler on them is
    visible in its type. -/

/-! Section: advisories API route and advisory components
    (src/unnamed/part_001, AdvisoryPanel.tsx, app/advisories/page.tsx). -/

/-- Advisory record of the advisories route / AdvisoryPanel / advisories page
    (identical interface in all three files).  severity: 1=Info, 2=Caution,
    3=Warning, 4=Urgent, 5=Critical. -/
structure Advisory where
  id : String
  timestamp : Int
  message : String
  severity : Int
  category : String
  expires : Int
deriving DecidableEq

/-- First KRHV mock advisory (PATTERN), with timestamps relative to the
    module-load instant `load` (the JS sources call Date.now() at load). -/
def mkAdvKRHVpattern (load : Int) : Advisory :=
  ⟨"ADV-KRHV-PATTERN-1", load - 5 * 60000,
   "TRAFFIC ALERT: Pattern separation issue between N12345 and N54321.",
   3, "PATTERN", load + 10 * 60000⟩

def mkAdvKRHVrunway (load : Int) : Advisory :=
  ⟨"ADV-KRHV-RUNWAY-1", load - 2 * 60000,
   "CAUTION: Multiple aircraft in vicinity of runway 13L.",
   2, "RUNWAY", load + 15 * 60000⟩

def mkAdvKRHVweather (load : Int) : Advisory :=
  ⟨"ADV-KRHV-WEATHER-1", load - 30 * 60000,
   "Weather conditions VFR. Ceiling 5000 feet, visibility 10 miles. Wind 240° at 12 knots, gusting 18 knots.",
   1, "WEATHER", load + 60 * 60000⟩

def mkAdvKPAOweather (load : Int) : Advisory :=
  ⟨"ADV-KPAO-WEATHER-1", load - 45 * 60000,
   "Weather conditions VFR. Ceiling unlimited, visibility 10 miles. Wind 290° at 8 knots.",
   1, "WEATHER", load + 60 * 60000⟩

/-- MOCK_ADVISORIES table (identical in the advisories route and in
    AdvisoryPanel.tsx), keyed by airport id. -/
def MOCK_ADVISORIES (load : Int) : List (String × List Advisory) :=
  [("KRHV", [mkAdvKRHVpattern load, mkAdvKRHVrunway load, mkAdvKRHVweather load]),
   ("KPAO", [mkAdvKPAOweather load])]

/-- The three Math.random() draws the advisories route GET handler may consume:
    the injection draw (threshold 0.1), the category index
    Math.floor(Math.random()*4), and the severity offset
    Math.floor(Math.random()*3). -/
structure RandSrc where
  draw : ℚ
  catIdx : Fin 4
  sevOff : Fin 3

def routeCategories : List String := ["TRAFFIC", "PATTERN", "APPROACH", "DEPARTURE"]

/-- Advisory randomly generated by the advisories route (10% chance per GET). -/
def newRandomAdvisory (airportId : String) (now : Int) (r : RandSrc) : Advisory :=
  let randomCategory := routeCategories.getD r.catIdx.val ""
  ⟨"ADV-" ++ airportId ++ "-" ++ randomCategory ++ "-" ++ toString now,
   now,
   "NEW " ++ randomCategory ++ " ADVISORY: Generated for demonstration purposes.",
   (r.sevOff.val : Int) + 2,
   randomCategory,
   now + 10 * 60000⟩

/-- JSON body of the advisories GET response. -/
structure AdvisoriesResp where
  advisories : List Advisory
  total : Nat
  airport : Option String
deriving DecidableEq

/-- GET handler of the advisories route (src/unnamed/part_001).  With no
    airport parameter it returns the flattened table with no expiry filter;
    with an airport parameter it filters out advisories with expires ≤ now and,
    with probability 0.1 (draw < 0.1), appends a randomly generated advisory.
    The HTTP status is always 200. -/
def advisoriesGET (table : List (String × List Advisory)) (airportId : Option String)
    (now : Int) (r : RandSrc) : AdvisoriesResp :=
  match airportId with
  | none =>
    let all := (table.map Prod.snd).flatten
    ⟨all, all.length, none⟩
  | some id =>
    let advisories := (table.lookup id).getD []
    let activeAdvisories := advisories.filter (fun adv => decide (now < adv.expires))
    let result :=
      if r.draw < 1/10 then activeAdvisories ++ [newRandomAdvisory id now r]
      else activeAdvisories
    ⟨result, result.length, some id⟩

/-- The Math.random() draws AdvisoryPanel.tsx may consume on one 30-second
    timer tick: the injection draw (threshold 0.2), the reported distance
    Math.floor(Math.random()*5)+1, the direction index, and the severity
    offset. -/
structure PanelRand where
  draw : ℚ
  miles : Fin 5
  dirIdx : Fin 4
  sevOff : Fin 3

def panelDirections : List String := ["north", "south", "east", "west"]

/-- Advisory randomly generated by AdvisoryPanel.tsx (20% chance per tick). -/
def newPanelAdvisory (airportId : String) (now : Int) (r : PanelRand) : Advisory :=
  ⟨"ADV-" ++ airportId ++ "-TRAFFIC-" ++ toString now,
   now,
   "NEW TRAFFIC ADVISORY: Aircraft reported " ++ toString (r.miles.val + 1) ++ " miles " ++
     panelDirections.getD r.dirIdx.val "" ++ " of the field.",
   (r.sevOff.val : Int) + 2,
   "TRAFFIC",
   now + 10 * 60000⟩

/-- One 30-second timer tick of AdvisoryPanel.tsx: with probability 0.2 it
    prepends a randomly generated advisory to the panel state. -/
def advisoryPanelTick (advisories : List Advisory) (airportId : String) (now : Int)
    (r : PanelRand) : List Advisory :=
  if r.draw < 1/5 then newPanelAdvisory airportId now r :: advisories else advisories

/-- The sort comparator of AdvisoryPanel.tsx (lines 86-91) and
    app/advisories/page.tsx (lines 118-123): severity descending, then
    timestamp descending; returns 0 on a full tie. -/
def advisoryCompare (a b : Advisory) : Int :=
  if a.severity ≠ b.severity then b.severity - a.severity else b.timestamp - a.timestamp

/-- Non-strict order induced by the comparator: a may precede b. -/
def advLe (a b : Advisory) : Prop := advisoryCompare a b ≤ 0

instance : DecidableRel advLe := fun a b => by unfold advLe; infer_instance

instance : IsTotal Advisory advLe :=
  ⟨by intro a b; unfold advLe advisoryCompare; split_ifs <;> omega⟩

instance : IsTrans Advisory advLe :=
  ⟨by intro a b c; unfold advLe advisoryCompare; split_ifs <;> omega⟩

/-- The sortedAdvisories computation of AdvisoryPanel.tsx /
    app/advisories/page.tsx: ECMAScript Array.prototype.sort is the stable
    ascending sort with respect to the comparator, which is exactly
    insertion sort with the induced non-strict order (an element is inserted
    before the first element it ties with or precedes). -/
def sortedAdvisories (l : List Advisory) : List Advisory := l.insertionSort advLe

/-! Section: aircraft API route and TrafficMap component
    (src/unnamed/part_000, TrafficMap.tsx). -/

/-- Aircraft record of the aircraft route and TrafficMap.tsx (identical
    interface).  position is [lat, lng]. -/
structure Aircraft where
  id : String
  callsign : String
  position : ℚ × ℚ
  altitude : ℚ
  heading : ℚ
  speed : ℚ
  verticalRate : ℚ
  onGround : Bool
  type : String
  alertLevel : Option String
deriving DecidableEq

/-- MOCK_AIRCRAFT table (identical in the aircraft route and TrafficMap.tsx). -/
def MOCK_AIRCRAFT : List (String × List Aircraft) :=
  [("KRHV",
    [⟨"a1", "N12345", (37.3339, -121.8205), 1500, 130, 90, -500, false, "C172", some "none"⟩,
     ⟨"a2", "N54321", (37.3318, -121.8175), 1200, 310, 70, 0, false, "PA28", some "caution"⟩,
     ⟨"a3", "N98765", (37.3305, -121.8155), 800, 130, 60, -300, false, "C152", some "warning"⟩]),
   ("KPAO",
    [⟨"b1", "N24680", (37.4623, -122.1156), 1000, 134, 85, -400, false, "C172", some "none"⟩,
     ⟨"b2", "N13579", (37.4603, -122.1136), 1300, 314, 75, 200, false, "SR22", some "none"⟩])]

/-- The per-aircraft simulated update of the aircraft route GET handler; r
    carries the three Math.random() draws it consumes (two position nudges,
    one speed change). -/
def updateAircraft (a : Aircraft) (r : ℚ × ℚ × ℚ) : Aircraft :=
  { a with
    position := (a.position.1 + (r.1 * 0.0002 - 0.0001),
                 a.position.2 + (r.2.1 * 0.0002 - 0.0001)),
    altitude := if a.onGround then 0 else a.altitude + a.verticalRate / 60,
    speed := if a.onGround then 0 else a.speed + (r.2.2 * 2 - 1) }

/-- JSON body (plus HTTP status) of the aircraft GET response. -/
structure AircraftResp where
  status : Nat
  aircraft : List Aircraft
  total : Nat
  airport : Option String
deriving DecidableEq

/-- GET handler of the aircraft route (src/unnamed/part_000): unknown airport
    ids fall back to the empty list (MOCK_AIRCRAFT[airportId] || []); both
    branches respond with HTTP 200.  rs supplies the Math.random() draws of
    the i-th aircraft update. -/
def aircraftGET (airportId : Option String) (rs : Nat → ℚ × ℚ × ℚ) : AircraftResp :=
  match airportId with
  | none =>
    let all := (MOCK_AIRCRAFT.map Prod.snd).flatten
    ⟨200, all, all.length, none⟩
  | some id =>
    let aircraft := (MOCK_AIRCRAFT.lookup id).getD []
    let updatedAircraft := aircraft.mapIdx (fun i a => updateAircraft a (rs i))
    ⟨200, updatedAircraft, updatedAircraft.length, some id⟩

/-- Squared Euclidean distance in raw degree coordinates, as computed (under a
    square root) by TrafficMap.tsx renderApproachPaths. -/
def distSq (p q : ℚ × ℚ) : ℚ :=
  (p.1 - q.1) * (p.1 - q.1) + (p.2 - q.2) * (p.2 - q.2)

/-- Midpoint of two coordinate pairs, ((start+end)/2 componentwise). -/
def midpointOf (p q : ℚ × ℚ) : ℚ × ℚ := ((p.1 + q.1) / 2, (p.2 + q.2) / 2)

/-- The aircraftOnApproach filter of TrafficMap.tsx renderApproachPaths
    (lines 268-291), stated on squared distances (Math.sqrt(d) < 0.01 iff
    d < 0.0001): a non-on-ground aircraft is counted iff the distance from its
    position to the MIDPOINT of the corridor segment [approachStart,
    threshold1] is below 0.01 degrees and its vertical rate is negative.  The
    loop over `positions` has exactly one iteration (the array holds the two
    segment endpoints), so minDist is just the midpoint distance.  The
    trigonometric construction of approachStart is kept abstract: both
    corridor endpoints are parameters. -/
def aircraftOnApproach (approachStart threshold1 : ℚ × ℚ) (a : Aircraft) : Bool :=
  if a.onGround then false
  else
    decide (distSq a.position (midpointOf approachStart threshold1) < 1/10000)
      && decide (a.verticalRate < 0)

/-- Path color chosen by renderApproachPaths from the on-approach count:
    initialised green, 1 green, 2 orange, more than 2 red. -/
def pathColor (countOnApproach : Nat) : String :=
  if countOnApproach = 1 then "green"
  else if countOnApproach = 2 then "orange"
  else if 2 < countOnApproach then "red"
  else "green"

/-- Squared minimum point-to-segment distance from p to the segment [a, b]
    (closest-point parameter clamped to [0, 1]). -/
def pointSegDistSq (a b p : ℚ × ℚ) : ℚ :=
  let dx := b.1 - a.1
  let dy := b.2 - a.2
  let len2 := dx * dx + dy * dy
  if len2 = 0 then distSq p a
  else
    let t := max 0 (min 1 (((p.1 - a.1) * dx + (p.2 - a.2) * dy) / len2))
    distSq p (a.1 + t * dx, a.2 + t * dy)

/-- Squared lateral tolerance of the approach corridor: 0.01 degrees
    (approximately 1 nautical mile was wanted; 0.01 degrees is what the
    reference code and spec use). -/
def lateralToleranceSq : ℚ := 1/10000

/-- Modelled from the spec: on-corridor test of §4.3a for the approach
    corridor (the conflict-detection engine is absent from the source tree) —
    an airborne track with vertical rate < 0 is on corridor iff the minimum
    point-to-segment distance from its position to the corridor segment is at
    most the lateral tolerance; stated on squared distances. -/
def specOnCorridor (approachStart threshold1 : ℚ × ℚ) (a : Aircraft) : Bool :=
  !a.onGround
    && decide (pointSegDistSq approachStart threshold1 a.position ≤ lateralToleranceSq)
    && decide (a.verticalRate < 0)

/-! Section: weather and airports API routes
    (src/unnamed/part_002, app/api/airports/route.ts). -/

/-- Kernel-reducible uppercase map, the semantics of JS
    String.prototype.toUpperCase() on the ASCII airport codes used here. -/
def toUpperStr (s : String) : String := ⟨s.data.map Char.toUpper⟩

/-- Weather record of the weather route. -/
structure Weather where
  airport_icao : String
  time : Int
  wind_direction : ℚ
  wind_speed : ℚ
  wind_gust : Option ℚ
  visibility : ℚ
  ceiling : Option ℚ
  temperature : ℚ
  dewpoint : ℚ
  altimeter : ℚ
  flight_category : String
  raw_metar : String
deriving DecidableEq

/-- MOCK_WEATHER table; the module-load timestamp `load` stands for the
    new Date().toISOString() value taken at load (the GET handler overwrites
    it with the request time before any lookup). -/
def MOCK_WEATHER (load : Int) : List (String × Weather) :=
  [("KRHV", ⟨"KRHV", load, 240, 12, some 18, 10, some 5000, 25, 15, 29.92, "VFR",
             "KRHV 121853Z 24012G18KT 10SM FEW050 25/15 A2992"⟩),
   ("KPAO", ⟨"KPAO", load, 290, 8, none, 10, none, 23, 14, 29.93, "VFR",
             "KPAO 121853Z 29008KT 10SM CLR 23/14 A2993"⟩),
   ("KSJC", ⟨"KSJC", load, 310, 15, some 22, 10, some 12000, 24, 13, 29.92, "VFR",
             "KSJC 121853Z 31015G22KT 10SM FEW120 24/13 A2992"⟩)]

/-- Response of the weather GET handler. -/
inductive WeatherResp where
  | ok (weather : Weather)
  | okAll (weather : List Weather) (total : Nat)
  | notFound (error code : String)
deriving DecidableEq

def WeatherResp.status : WeatherResp → Nat
  | .notFound _ _ => 404
  | _ => 200

/-- The in-place timestamp update the weather GET applies to every entry
    before answering (weather.time = new Date().toISOString()). -/
def withTime (now : Int) (w : Weather) : Weather := { w with time := now }

/-- GET handler of the weather route (src/unnamed/part_002): every entry's
    time is first updated to now; a present airport parameter is UPPERCASED
    before lookup and an unknown code yields HTTP 404 with code
    WEATHER_NOT_FOUND. -/
def weatherGET (load : Int) (airport : Option String) (now : Int) : WeatherResp :=
  let table := (MOCK_WEATHER load).map (fun p => (p.1, withTime now p.2))
  match airport with
  | some a =>
    match table.lookup (toUpperStr a) with
    | none => .notFound "Weather for specified airport not found" "WEATHER_NOT_FOUND"
    | some w => .ok w
  | none => .okAll (table.map Prod.snd) (table.map Prod.snd).length

/-- Runway record of the airports route and TrafficMap.tsx. -/
structure Runway where
  id : String
  heading : ℚ
  length : ℚ
  width : ℚ
  threshold1 : ℚ × ℚ
  threshold2 : ℚ × ℚ
  active : Bool
deriving DecidableEq

/-- Airport record of the airports route. -/
structure Airport where
  id : String
  name : String
  position : ℚ × ℚ
  elevation : ℚ
  runways : List Runway
deriving DecidableEq

/-- MOCK_AIRPORTS table of app/api/airports/route.ts. -/
def MOCK_AIRPORTS : List (String × Airport) :=
  [("KRHV",
    ⟨"KRHV", "Reid-Hillview Airport", (37.3329, -121.8989), 133,
     [⟨"13L/31R", 130, 3100, 75, (37.3376, -121.9034), (37.3281, -121.8944), true⟩,
      ⟨"13R/31L", 130, 3100, 75, (37.3373, -121.9037), (37.3278, -121.8947), false⟩]⟩),
   ("KPAO",
    ⟨"KPAO", "Palo Alto Airport", (37.4580, -122.1150), 4,
     [⟨"13/31", 130, 2443, 60, (37.4617, -122.1184), (37.4543, -122.1116), true⟩]⟩),
   ("KSJC",
    ⟨"KSJC", "San Jose International Airport", (37.3639, -121.9289), 62,
     [⟨"12L/30R", 120, 11000, 150, (37.3689, -121.9386), (37.3590, -121.9192), true⟩,
      ⟨"12R/30L", 120, 10200, 150, (37.3669, -121.9408), (37.3570, -121.9214), false⟩]⟩)]

/-- Response of the airports GET handler. -/
inductive AirportsResp where
  | ok (airport : Airport)
  | okAll (airports : List Airport) (total : Nat)
  | notFound (error code : String)
deriving DecidableEq

def AirportsResp.status : AirportsResp → Nat
  | .notFound _ _ => 404
  | _ => 200

/-- GET handler of the airports route (app/api/airports/route.ts): a present
    icao parameter is UPPERCASED before lookup; an unknown code yields HTTP
    404 with code AIRPORT_NOT_FOUND. -/
def airportsGET (icao : Option String) : AirportsResp :=
  match icao with
  | some c =>
    match MOCK_AIRPORTS.lookup (toUpperStr c) with
    | none => .notFound "Airport not found" "AIRPORT_NOT_FOUND"
    | some a => .ok a
  | none => .okAll (MOCK_AIRPORTS.map Prod.snd) (MOCK_AIRPORTS.map Prod.snd).length

/-! Section: Go ADS-B data-ingestion service (src/unnamed/part_006). -/

/-- Decoded JSON value as it appears in an OpenSky state array
    (Go interface values: nil, string, float64 or bool). -/
inductive JVal where
  | null
  | str (s : String)
  | num (q : ℚ)
  | bool (b : Bool)
deriving DecidableEq

/-- Go type assertion v, _ := x.(string): zero value on failure. -/
def JVal.asString : JVal → String
  | .str s => s
  | _ => ""

/-- Go type assertion v, _ := x.(float64): zero value on failure. -/
def JVal.asFloat : JVal → ℚ
  | .num q => q
  | _ => 0

/-- Go type assertion v, _ := x.(bool): zero value on failure. -/
def JVal.asBool : JVal → Bool
  | .bool b => b
  | _ => false

def JVal.isNull : JVal → Bool
  | .null => true
  | _ => false

/-- OpenSkyResponse: the time field and the raw state arrays. -/
structure OpenSkyResponse where
  time : Int
  states : List (List JVal)

/-- Parsed AircraftState of the ingestion service. -/
structure AircraftState where
  icao24 : String
  callsign : String
  originCountry : String
  latitude : ℚ
  longitude : ℚ
  altitude : ℚ
  velocity : ℚ
  heading : ℚ
  verticalRate : ℚ
  onGround : Bool
  lastContact : Int
  timePosition : Int
  timestamp : Int
  airportVicinity : String
deriving DecidableEq

/-- Go conversion int64(f) of a float64: truncation toward zero. -/
def ratToInt64 (q : ℚ) : Int := q.num.tdiv q.den

/-- stateArray[i]; under the length guard of parseAircraftStates every index
    used (0..16) is in bounds, so the default is never consulted. -/
def fieldAt (r : List JVal) (i : Nat) : JVal := r.getD i JVal.null

/-- Body of the parseAircraftStates loop for one state array: arrays shorter
    than 17 entries are skipped (continue); otherwise every optional field is
    read through a nil check and a zero-defaulting type assertion, so an
    absent (null) field is stored as zero.  The Go source assigns the float64
    assertion of stateArray[5] directly to the int64 timePos variable (which
    does not compile as Go); it is embedded here as the evident numeric
    conversion used three lines below for lastContact. -/
def parseState (time : Int) (airportICAO : String) (stateArray : List JVal) :
    Option AircraftState :=
  if stateArray.length < 17 then none
  else
    some
      { icao24 := (fieldAt stateArray 0).asString
        callsign := (fieldAt stateArray 1).asString
        originCountry := (fieldAt stateArray 2).asString
        latitude := if (fieldAt stateArray 6).isNull then 0 else (fieldAt stateArray 6).asFloat
        longitude := if (fieldAt stateArray 7).isNull then 0 else (fieldAt stateArray 7).asFloat
        altitude := if (fieldAt stateArray 8).isNull then 0 else (fieldAt stateArray 8).asFloat
        velocity := if (fieldAt stateArray 10).isNull then 0 else (fieldAt stateArray 10).asFloat
        heading := if (fieldAt stateArray 11).isNull then 0 else (fieldAt stateArray 11).asFloat
        verticalRate := if (fieldAt stateArray 16).isNull then 0 else (fieldAt stateArray 16).asFloat
        onGround := if (fieldAt stateArray 9).isNull then false else (fieldAt stateArray 9).asBool
        lastContact := if (fieldAt stateArray 4).isNull then 0 else ratToInt64 (fieldAt stateArray 4).asFloat
        timePosition := if (fieldAt stateArray 5).isNull then 0 else ratToInt64 (fieldAt stateArray 5).asFloat
        timestamp := time
        airportVicinity := airportICAO }

/-- parseAircraftStates (src/unnamed/part_006 lines 133-200): converts the
    OpenSky response into AircraftState values, skipping state arrays shorter
    than 17 entries; the function is total — no input aborts the batch. -/
def parseAircraftStates (response : OpenSkyResponse) (airportICAO : String) :
    List AircraftState :=
  response.states.filterMap (parseState response.time airportICAO)

/-- AirportBoundary of the ingestion service. -/
structure AirportBoundary where
  icao : String
  name : String
  latitude : ℚ
  longitude : ℚ
  radius : ℚ
deriving DecidableEq

def airportKRHVboundary : AirportBoundary := ⟨"KRHV", "Reid-Hillview", 37.3329, -121.8195, 10⟩

def airportKPAOboundary : AirportBoundary := ⟨"KPAO", "Palo Alto", 37.4613, -122.1146, 10⟩

/-- The airports slice of the ingestion service. -/
def ingestAirports : List AirportBoundary := [airportKRHVboundary, airportKPAOboundary]

/-- The helper named cos of the ingestion service (part_006 lines 202-205).
    It is NOT math.Cos: it returns
    float64(time.Now().Nanosecond()%10000)/10000.0*0.1 + 0.9, a value derived
    from the wall-clock nanosecond (passed here explicitly), and it never
    reads its radians argument. -/
def cos (radians : ℚ) (nowNanosecond : Nat) : ℚ :=
  ((nowNanosecond % 10000 : Nat) : ℚ) / 10000 * 0.1 + 0.9

/-- Bounding box computed by processAircraftData for one airport, in the
    order the URL query embeds it: (lamin, lomin, lamax, lomax) =
    (minLat, minLon, maxLat, maxLon), with latRange = radius/60 and
    lonRange = latRange / cos(latitude * 0.0174533). -/
def requestBoundingBox (airport : AirportBoundary) (nowNanosecond : Nat) : ℚ × ℚ × ℚ × ℚ :=
  let latRange := airport.radius / 60
  let lonRange := latRange / cos (airport.latitude * 0.0174533) nowNanosecond
  (airport.latitude - latRange, airport.longitude - lonRange,
   airport.latitude + latRange, airport.longitude + lonRange)

/-! Section: engine components modelled from the spec.  The README and
    docker-compose declare backend/go/conflict_detection and
    backend/python/advisory_generation services whose source is not in the
    tree; the ingestion service only logs parsed states (part_006 lines
    115-128).  The definitions below follow the words of the spec and are
    used only by the claims that concern these missing components. -/

/-- Modelled from the spec: corridor severity step function of §4.3a —
    0 on-corridor tracks yield no Finding, 1 yields caution (2), 2 yields
    warning (3), 3 or more yield critical (5). -/
def corridorSeverity (count : Nat) : Option Nat :=
  if count = 0 then none
  else if count = 1 then some 2
  else if count = 2 then some 3
  else some 5

/-- Numeric view of corridorSeverity with none read as 0, used to state
    monotonicity of the step function. -/
def corridorSeverityVal (count : Nat) : Nat := (corridorSeverity count).getD 0

/-- Modelled from the spec: canonical AircraftTrack entity of §3 (owned by
    the State Normalizer of the absent conflict-detection engine). -/
structure AircraftTrack where
  id : String
  callsign : String
  position : ℚ × ℚ
  altitude : ℚ
  heading : ℚ
  groundSpeed : ℚ
  verticalRate : ℚ
  onGround : Bool
  timestamp : Int
deriving DecidableEq

/-- Modelled from the spec: the §4.1 State Normalizer upsert of one sample
    into the track table (monotonic merge).  The sample is applied only if
    its timestamp is ≥ the stored timestamp; otherwise the table is left
    unchanged and the sample is counted as stale-discarded (second
    component), not treated as an error.  An id not yet present is inserted. -/
def upsertTrack (table : List (String × AircraftTrack)) (sample : AircraftTrack) :
    List (String × AircraftTrack) × Nat :=
  match table.lookup sample.id with
  | none => (table ++ [(sample.id, sample)], 0)
  | some stored =>
    if stored.timestamp ≤ sample.timestamp then
      (table.map (fun p => if p.1 = sample.id then (sample.id, sample) else p), 0)
    else (table, 1)

/-! Section: helper lemmas shared by several claims. -/

/-- The per-airport advisories GET with an injection draw below 0.1 appends
    the randomly generated advisory after the expiry filter. -/
theorem advisoriesGET_draw_lt (table : List (String × List Advisory)) (id : String)
    (now : Int) (r : RandSrc) (h : r.draw < 1/10) :
    advisoriesGET table (some id) now r =
      (let active := ((table.lookup id).getD []).filter (fun adv => decide (now < adv.expires))
       let result := active ++ [newRandomAdvisory id now r]
       ⟨result, result.length, some id⟩) := by
  simp only [advisoriesGET, if_pos h]

/-- The per-airport advisories GET with an injection draw of at least 0.1
    returns exactly the expiry-filtered table entry. -/
theorem advisoriesGET_draw_ge (table : List (String × List Advisory)) (id : String)
    (now : Int) (r : RandSrc) (h : ¬ r.draw < 1/10) :
    advisoriesGET table (some id) now r =
      (let active := ((table.lookup id).getD []).filter (fun adv => decide (now < adv.expires))
       ⟨active, active.length, some id⟩) := by
  simp only [advisoriesGET, if_neg h]

/-- Looking up in a table whose values were rewritten in place looks up the
    original table and rewrites the found value. -/
theorem lookup_map_value {β γ : Type} (f : β → γ) :
    ∀ (l : List (String × β)) (k : String),
      (l.map (fun p => (p.1, f p.2))).lookup k = (l.lookup k).map f
  | [], _ => rfl
  | (a, b) :: rest, k => by
    by_cases h : k == a
    · simp [List.lookup, h]
    · simp only [List.map, List.lookup, h]
      exact lookup_map_value f rest k

/-- A value found by lookup is among the table's values. -/
theorem lookup_mem_values {β : Type} :
    ∀ (l : List (String × β)) (k : String) (v : β),
      l.lookup k = some v → v ∈ l.map Prod.snd
  | [], _, _, h => by simp [List.lookup] at h
  | (a, b) :: rest, k, v, h => by
    by_cases hk : k == a
    · simp [List.lookup, hk] at h
      simp [h]
    · simp only [List.lookup, hk] at h
      exact List.mem_cons_of_mem _ (lookup_mem_values rest k v h)

/-- A state array shorter than 17 entries is skipped by the parser. -/
theorem parseState_none_of_short (time : Int) (icao : String) (r : List JVal)
    (h : r.length < 17) : parseState time icao r = none := by
  unfold parseState
  rw [if_pos h]

/-- A state array of at least 17 entries yields a state. -/
theorem parseState_isSome_of_long (time : Int) (icao : String) (r : List JVal)
    (h : 17 ≤ r.length) : (parseState time icao r).isSome = true := by
  unfold parseState
  rw [if_neg (by omega)]
  rfl

/-- The parser yields exactly one state per well-formed (length ≥ 17) record. -/
theorem parse_length_eq (time : Int) (icao : String) :
    ∀ xs : List (List JVal),
      (xs.filterMap (parseState time icao)).length =
        (xs.filter (fun r => decide (17 ≤ r.length))).length := by
  intro xs
  induction xs with
  | nil => rfl
  | cons r rest ih =>
    rw [List.filterMap_cons, List.filter_cons]
    by_cases h : r.length < 17
    · rw [parseState_none_of_short _ _ _ h]
      have h2 : ¬ (17 ≤ r.length) := by omega
      simp [h2, ih]
    · have h2 : 17 ≤ r.length := by omega
      rcases Option.isSome_iff_exists.mp (parseState_isSome_of_long time icao r h2) with ⟨s, hs⟩
      simp [hs, h2, ih]

/-! Section: the claims. -/

/-- Concrete corridor segment for claim C1: the approach start 0.08 degrees
    (about 5 nm of latitude) from a threshold at the origin. -/
def corridorStartEx : ℚ × ℚ := (2/25, 0)

def corridorThresholdEx : ℚ × ℚ := (0, 0)

/-- Concrete descending airborne track for claim C1, 0.005 degrees abeam the
    threshold end of the corridor segment. -/
def descendingTrackEx : Aircraft :=
  ⟨"x1", "N11111", (0, 1/200), 1500, 130, 90, -500, false, "C172", some "none"⟩

/-- C1: the claim requires approach-corridor occupancy to be decided by the
    minimum point-to-segment distance (on-corridor iff that distance is at
    most the lateral tolerance), and the spec itself says the reference
    rendering's midpoint shortcut must not be used; the code
    (TrafficMap.tsx aircraftOnApproach) nevertheless uses the distance to the
    segment midpoint.  Evaluation at the failing input: a descending airborne
    track whose point-to-segment distance (0.005 degrees) is within the
    tolerance (0.01 degrees), hence on corridor per the claim, which the
    code's midpoint test reports as NOT on approach (midpoint distance
    about 0.0403 degrees). -/
theorem C1_midpoint_shortcut_misses_on_corridor_track :
    pointSegDistSq corridorStartEx corridorThresholdEx descendingTrackEx.position
        ≤ lateralToleranceSq
    ∧ specOnCorridor corridorStartEx corridorThresholdEx descendingTrackEx = true
    ∧ aircraftOnApproach corridorStartEx corridorThresholdEx descendingTrackEx = false := by
  refine ⟨?_, ?_, ?_⟩ <;>
    norm_num [pointSegDistSq, distSq, specOnCorridor, aircraftOnApproach, midpointOf,
      lateralToleranceSq, corridorStartEx, corridorThresholdEx, descendingTrackEx,
      min_def, max_def]

/-- C2: the claim requires conflict analysis and advisory generation to be
    deterministic in (inputs, now) alone; the advisories route GET and the
    AdvisoryPanel tick both consume Math.random() and can emit different
    output sets for identical (table, airport, now): a draw of 0 triggers the
    random advisory injection, a draw of 1/2 does not. -/
theorem C2_random_injection_breaks_determinism :
    advisoriesGET (MOCK_ADVISORIES 0) (some "KRHV") 0 ⟨0, 0, 0⟩ ≠
      advisoriesGET (MOCK_ADVISORIES 0) (some "KRHV") 0 ⟨1/2, 0, 0⟩
    ∧ advisoryPanelTick [] "KRHV" 0 ⟨0, 0, 0, 0⟩ ≠ advisoryPanelTick [] "KRHV" 0 ⟨1/2, 0, 0, 0⟩ := by
  constructor
  · rw [advisoriesGET_draw_lt _ _ _ _ (by norm_num), advisoriesGET_draw_ge _ _ _ _ (by norm_num)]
    decide
  · rw [show advisoryPanelTick [] "KRHV" 0 ⟨0, 0, 0, 0⟩ =
          [newPanelAdvisory "KRHV" 0 ⟨0, 0, 0, 0⟩] from
        by simp only [advisoryPanelTick]; norm_num,
       show advisoryPanelTick [] "KRHV" 0 ⟨1/2, 0, 0, 0⟩ = [] from
        by simp only [advisoryPanelTick]; norm_num]
    decide

/-- C3 counterexample: with module-load time 0 the KRHV PATTERN advisory has
    expires-at T = 600000.  The all-airports query (no airport parameter) at
    time 600001 > T still returns it (that branch applies no expiry filter),
    and the per-airport query at time 600000 = T ≤ T omits it (the filter
    keeps an advisory only when expires is STRICTLY greater than now) — both
    conjuncts contradict the claim as stated. -/
theorem C3_counterexample_expiry_filter :
    mkAdvKRHVpattern 0 ∈
        (advisoriesGET (MOCK_ADVISORIES 0) none 600001 ⟨1/2, 0, 0⟩).advisories
    ∧ mkAdvKRHVpattern 0 ∉
        (advisoriesGET (MOCK_ADVISORIES 0) (some "KRHV") 600000 ⟨1/2, 0, 0⟩).advisories := by
  constructor
  · decide
  · rw [advisoriesGET_draw_ge _ _ _ _ (by norm_num)]
    decide

/-- C3 amended: for the per-airport query with no random injection
    (draw ≥ 0.1), an advisory in the airport's table entry with
    expires-at = T is returned iff now < T — so it is omitted at every query
    time ≥ T (not only > T) and present at every time < T; the all-airports
    query applies no expiry filter at all: every advisory of the table is
    returned at every query time, expired or not. -/
theorem C3_amended_expiry (table : List (String × List Advisory)) (airportId : String)
    (a : Advisory) (now : Int) (r : RandSrc)
    (hdraw : ¬ r.draw < 1/10) (ha : a ∈ (table.lookup airportId).getD []) :
    (a ∈ (advisoriesGET table (some airportId) now r).advisories ↔ now < a.expires)
    ∧ a ∈ (advisoriesGET table none now r).advisories := by
  constructor
  · rw [advisoriesGET_draw_ge _ _ _ _ hdraw]
    simp [List.mem_filter, ha]
  · cases hl : table.lookup airportId with
    | none => rw [hl] at ha; simp at ha
    | some l =>
      rw [hl] at ha
      simp only [Option.getD_some] at ha
      simp only [advisoriesGET]
      exact List.mem_flatten.mpr ⟨l, lookup_mem_values table airportId l hl, ha⟩

/-- C3 witness: the amended statement applied to the KRHV PATTERN advisory at
    query time 0 (before its expiry), with a non-injecting draw. -/
theorem C3_amended_expiry_witness :
    (¬ ((⟨1/2, 0, 0⟩ : RandSrc).draw < 1/10))
    ∧ mkAdvKRHVpattern 0 ∈ (((MOCK_ADVISORIES 0).lookup "KRHV").getD [])
    ∧ ((mkAdvKRHVpattern 0 ∈
          (advisoriesGET (MOCK_ADVISORIES 0) (some "KRHV") 0 ⟨1/2, 0, 0⟩).advisories
        ↔ (0 : Int) < (mkAdvKRHVpattern 0).expires)
       ∧ mkAdvKRHVpattern 0 ∈
          (advisoriesGET (MOCK_ADVISORIES 0) none 0 ⟨1/2, 0, 0⟩).advisories) :=
  ⟨by norm_num, by decide,
   C3_amended_expiry (MOCK_ADVISORIES 0) "KRHV" (mkAdvKRHVpattern 0) 0 ⟨1/2, 0, 0⟩
     (by norm_num) (by decide)⟩

/-- C4: the corridor severity step function modelled from §4.3a of the spec
    (the conflict-detection engine is absent from the source tree): a count
    of 0 yields no finding, 1 yields caution (2), 2 yields warning (3), 3 or
    more yield critical (5), and the numeric severity is monotone in the
    count. -/
theorem C4_corridor_severity_monotone_step :
    corridorSeverity 0 = none
    ∧ corridorSeverity 1 = some 2
    ∧ corridorSeverity 2 = some 3
    ∧ (∀ n : Nat, 3 ≤ n → corridorSeverity n = some 5)
    ∧ (∀ n : Nat, corridorSeverityVal n ≤ corridorSeverityVal (n + 1)) := by
  refine ⟨rfl, rfl, rfl, ?_, ?_⟩
  · intro n hn
    unfold corridorSeverity
    rw [if_neg (by omega), if_neg (by omega), if_neg (by omega)]
  · intro n
    unfold corridorSeverityVal corridorSeverity
    rcases n with _ | _ | _ | m <;> simp

/-- C4 witness: the severity of a count of 3 is critical (5). -/
theorem C4_corridor_severity_witness : 3 ≤ 3 ∧ corridorSeverity 3 = some 5 :=
  ⟨by omega, C4_corridor_severity_monotone_step.2.2.2.1 3 (by omega)⟩

/-- Two advisories tying on both severity and timestamp, for claim C5; their
    ids are in ascending order advTieA, advTieB. -/
def advTieA : Advisory := ⟨"A-FIRST", 0, "tie one", 3, "PATTERN", 600000⟩

def advTieB : Advisory := ⟨"B-SECOND", 0, "tie two", 3, "PATTERN", 600000⟩

/-- C5 counterexample: the advisory sort of AdvisoryPanel.tsx /
    app/advisories/page.tsx has no id tiebreak — on a full (severity,
    timestamp) tie the stable sort keeps the input order, so the input
    [advTieB, advTieA] is returned with ids in DESCENDING order, and the two
    orderings of the same two-element set produce two different outputs: the
    output order is not uniquely determined by the set. -/
theorem C5_counterexample_no_id_tiebreak :
    sortedAdvisories [advTieB, advTieA] = [advTieB, advTieA]
    ∧ sortedAdvisories [advTieA, advTieB] = [advTieA, advTieB]
    ∧ advTieA ≠ advTieB
    ∧ advTieA.severity = advTieB.severity
    ∧ advTieA.timestamp = advTieB.timestamp := by
  refine ⟨by decide, by decide, by decide, rfl, rfl⟩

/-- C5 amended: the returned list is a permutation of the input sorted by
    severity descending, then timestamp (creation time) descending; there is
    no id tiebreak — full ties keep their input order (stable sort), so the
    output order depends on the input order, not only on the set of
    advisories. -/
theorem C5_amended_sort_order (l : List Advisory) :
    (sortedAdvisories l).Perm l
    ∧ (sortedAdvisories l).Sorted advLe
    ∧ (∀ a b : Advisory,
        advLe a b ↔ (b.severity < a.severity
          ∨ (a.severity = b.severity ∧ b.timestamp ≤ a.timestamp))) := by
  refine ⟨List.perm_insertionSort advLe l, List.sorted_insertionSort advLe l, ?_⟩
  intro a b
  unfold advLe advisoryCompare
  split_ifs with h <;> omega

/-- C6: the spec-modelled Normalizer upsert (the track table belongs to the
    conflict-detection engine absent from the source tree; the ingestion
    service only logs states): a sample whose timestamp is strictly below the
    stored track's timestamp leaves the track table completely unchanged and
    is counted as one stale discard — not an error (the operation is total). -/
theorem C6_stale_sample_leaves_table_unchanged (table : List (String × AircraftTrack))
    (sample stored : AircraftTrack)
    (h : table.lookup sample.id = some stored)
    (hts : sample.timestamp < stored.timestamp) :
    upsertTrack table sample = (table, 1) := by
  simp only [upsertTrack, h]
  rw [if_neg (by omega)]

/-- Stored track for the C6 witness. -/
def storedTrackEx : AircraftTrack :=
  ⟨"a1", "N12345", (37.3339, -121.8205), 1500, 130, 90, -500, false, 1000⟩

/-- Out-of-order sample for the C6 witness: same id, older timestamp. -/
def staleSampleEx : AircraftTrack :=
  ⟨"a1", "N12345", (37.3340, -121.8206), 1490, 131, 90, -480, false, 900⟩

/-- C6 witness: the stale sample against a one-track table. -/
theorem C6_stale_sample_witness :
    [("a1", storedTrackEx)].lookup staleSampleEx.id = some storedTrackEx
    ∧ staleSampleEx.timestamp < storedTrackEx.timestamp
    ∧ upsertTrack [("a1", storedTrackEx)] staleSampleEx = ([("a1", storedTrackEx)], 1) :=
  ⟨rfl, by decide,
   C6_stale_sample_leaves_table_unchanged [("a1", storedTrackEx)] staleSampleEx storedTrackEx
     rfl (by decide)⟩

/-- Well-formed 17-entry OpenSky state array with the given icao24. -/
def okRecord (icao24 : String) : List JVal :=
  [.str icao24, .str "N123AB", .str "United States", .null, .num 1700000000,
   .null, .num 37, .num (-121), .num 800, .bool false, .num 60, .num 130,
   .null, .null, .null, .null, .num (-300)]

/-- A 17-entry state array whose id entry (index 0) is null. -/
def nullIdRecord : List JVal :=
  [.null, .str "N999ZZ", .str "United States", .null, .num 1700000000,
   .null, .num 37, .num (-121), .num 800, .bool false, .num 60, .num 130,
   .null, .null, .null, .null, .num (-300)]

/-- A malformed (too-short) state array. -/
def shortRecord : List JVal := [.str "abc123", .num 37]

/-- C7 counterexample: a full-length record whose id entry is null is NOT
    skipped by parseAircraftStates (the claim says every record with a
    missing id is skipped and counted as malformed): the parser returns a
    state for it, with the empty string as icao24; nothing in the parser
    counts anything. -/
theorem C7_counterexample_null_id_kept :
    (parseAircraftStates ⟨1700000000, [nullIdRecord]⟩ "KRHV").length = 1
    ∧ (parseAircraftStates ⟨1700000000, [nullIdRecord]⟩ "KRHV").map AircraftState.icao24
        = [""] :=
  ⟨rfl, rfl⟩

/-- C7 amended: the only records parseAircraftStates treats as malformed are
    state arrays shorter than 17 entries; such a record is skipped (and not
    counted — the parser keeps no malformed counter), its presence anywhere
    in the batch does not affect the states parsed from the other records,
    and the parser is a total function — no batch aborts: it returns exactly
    one state per record of length at least 17.  Records with a null id but
    full length are parsed, with the empty string as id. -/
theorem C7_amended_short_records_skipped (time : Int) (icao : String)
    (xs ys : List (List JVal)) (bad : List JVal) (hbad : bad.length < 17) :
    parseAircraftStates ⟨time, xs ++ bad :: ys⟩ icao
        = parseAircraftStates ⟨time, xs ++ ys⟩ icao
    ∧ (parseAircraftStates ⟨time, xs⟩ icao).length
        = (xs.filter (fun r => decide (17 ≤ r.length))).length := by
  constructor
  · have hb : parseState time icao bad = none := parseState_none_of_short time icao bad hbad
    simp [parseAircraftStates, List.filterMap_append, List.filterMap_cons, hb]
  · exact parse_length_eq time icao xs

/-- C7 witness: a batch of five records, one of them short — the four
    well-formed records parse the same with or without the malformed one
    (Scenario C of the spec, minus the nonexistent counter). -/
theorem C7_amended_witness :
    shortRecord.length < 17
    ∧ (parseAircraftStates
          ⟨1700000000, [okRecord "abc123", okRecord "def456"]
              ++ shortRecord :: [okRecord "789xyz", okRecord "fedcba"]⟩ "KPAO"
        = parseAircraftStates
          ⟨1700000000, [okRecord "abc123", okRecord "def456"]
              ++ [okRecord "789xyz", okRecord "fedcba"]⟩ "KPAO"
       ∧ (parseAircraftStates ⟨1700000000, [okRecord "abc123", okRecord "def456"]⟩ "KPAO").length
          = ([okRecord "abc123", okRecord "def456"].filter
              (fun r => decide (17 ≤ r.length))).length) :=
  ⟨by decide,
   C7_amended_short_records_skipped 1700000000 "KPAO"
     [okRecord "abc123", okRecord "def456"] [okRecord "789xyz", okRecord "fedcba"]
     shortRecord (by decide)⟩

/-- C8: in parseAircraftStates, every absent (null) optional field of a
    full-length record is stored as zero in the resulting AircraftState —
    latitude, longitude, altitude, velocity, heading and vertical rate all
    default to 0 when the corresponding state-array entry is null, which is
    indistinguishable from a parsed legitimate zero reading (the witness
    exhibits the equality with an explicit-zeros record). -/
theorem C8_null_optional_fields_parse_to_zero (time : Int) (icao : String) (r : List JVal)
    (hlen : 17 ≤ r.length)
    (h6 : fieldAt r 6 = JVal.null) (h7 : fieldAt r 7 = JVal.null)
    (h8 : fieldAt r 8 = JVal.null) (h10 : fieldAt r 10 = JVal.null)
    (h11 : fieldAt r 11 = JVal.null) (h16 : fieldAt r 16 = JVal.null) :
    (parseState time icao r).map AircraftState.latitude = some 0
    ∧ (parseState time icao r).map AircraftState.longitude = some 0
    ∧ (parseState time icao r).map AircraftState.altitude = some 0
    ∧ (parseState time icao r).map AircraftState.velocity = some 0
    ∧ (parseState time icao r).map AircraftState.heading = some 0
    ∧ (parseState time icao r).map AircraftState.verticalRate = some 0 := by
  have hn : ¬ (r.length < 17) := by omega
  unfold parseState
  rw [if_neg hn]
  simp [h6, h7, h8, h10, h11, h16, JVal.isNull]

/-- State array with every optional position/velocity entry null. -/
def nullFieldsRecord : List JVal :=
  [.str "abc123", .str "N55555", .str "United States", .null, .num 1700000000,
   .null, .null, .null, .null, .bool false, .null, .null,
   .null, .null, .null, .null, .null]

/-- The same state array with explicit 0.0 readings in those entries. -/
def zeroFieldsRecord : List JVal :=
  [.str "abc123", .str "N55555", .str "United States", .null, .num 1700000000,
   .null, .num 0, .num 0, .num 0, .bool false, .num 0, .num 0,
   .null, .null, .null, .null, .num 0]

/-- C8 witness: the all-null record parses with zeros in all six optional
    fields, and parses to exactly the same state as the explicit-zeros
    record. -/
theorem C8_null_optional_fields_witness :
    (17 ≤ nullFieldsRecord.length ∧ fieldAt nullFieldsRecord 6 = JVal.null)
    ∧ ((parseState 1700000000 "KPAO" nullFieldsRecord).map AircraftState.latitude = some 0
       ∧ (parseState 1700000000 "KPAO" nullFieldsRecord).map AircraftState.longitude = some 0
       ∧ (parseState 1700000000 "KPAO" nullFieldsRecord).map AircraftState.altitude = some 0
       ∧ (parseState 1700000000 "KPAO" nullFieldsRecord).map AircraftState.velocity = some 0
       ∧ (parseState 1700000000 "KPAO" nullFieldsRecord).map AircraftState.heading = some 0
       ∧ (parseState 1700000000 "KPAO" nullFieldsRecord).map AircraftState.verticalRate = some 0)
    ∧ parseState 1700000000 "KPAO" nullFieldsRecord
        = parseState 1700000000 "KPAO" zeroFieldsRecord :=
  ⟨⟨by decide, rfl⟩,
   C8_null_optional_fields_parse_to_zero 1700000000 "KPAO" nullFieldsRecord
     (by decide) rfl rfl rfl rfl rfl rfl,
   rfl⟩

/-- C9: the ingestion service's helper named cos never reads its radians
    argument; its value is derived from the wall-clock nanosecond and always
    lies in [0.9, 1.0); consequently two runs of the bounding-box computation
    for the same airport at different nanoseconds produce different longitude
    ranges and hence different lamin/lomin/lamax/lomax query tuples (the
    request URL embeds exactly this tuple). -/
theorem C9_cos_helper_ignores_argument :
    (∀ radians1 radians2 : ℚ, ∀ nsec : Nat, cos radians1 nsec = cos radians2 nsec)
    ∧ (∀ radians : ℚ, ∀ nsec : Nat, 9/10 ≤ cos radians nsec ∧ cos radians nsec < 1)
    ∧ requestBoundingBox airportKRHVboundary 0 ≠ requestBoundingBox airportKRHVboundary 5000 := by
  refine ⟨fun _ _ _ => rfl, ?_, ?_⟩
  · intro radians nsec
    unfold cos
    have h : nsec % 10000 < 10000 := Nat.mod_lt _ (by norm_num)
    have h2 : ((nsec % 10000 : Nat) : ℚ) < 10000 := by exact_mod_cast h
    have h0 : (0:ℚ) ≤ ((nsec % 10000 : Nat) : ℚ) := by positivity
    constructor <;> nlinarith
  · simp only [requestBoundingBox, cos, airportKRHVboundary, ne_eq, Prod.mk.injEq, not_and]
    intro h1 h2
    norm_num at h2

/-- C10 counterexample: the advisories endpoint does not always return an
    empty list for an unknown airport — with an injection draw below 0.1 the
    GET for the unknown id KXYZ returns the randomly generated advisory. -/
theorem C10_counterexample_random_advisory_for_unknown_airport :
    (advisoriesGET (MOCK_ADVISORIES 0) (some "KXYZ") 0 ⟨0, 0, 0⟩).advisories ≠ [] := by
  rw [advisoriesGET_draw_lt _ _ _ _ (by norm_num)]
  decide

/-- C10 amended: for an airport id absent from the mock tables, the aircraft
    endpoint returns HTTP 200 with an empty list; the advisories endpoint
    returns HTTP 200 with a list that is empty whenever the random injection
    draw is at least 0.1 (a randomly generated advisory may otherwise be
    appended); the weather and airports endpoints return HTTP 404 with the
    WEATHER_NOT_FOUND / AIRPORT_NOT_FOUND error objects.  The weather and
    airports lookups uppercase the query parameter first (so the lowercase
    known code krhv is found, HTTP 200), while the aircraft and advisories
    lookups do not (krhv misses their tables and yields the empty list). -/
theorem C10_amended_unknown_airport_behavior (idA : String) (load now : Int)
    (r : RandSrc) (rs : Nat → ℚ × ℚ × ℚ)
    (h1 : MOCK_AIRCRAFT.lookup idA = none)
    (h2 : (MOCK_ADVISORIES load).lookup idA = none)
    (h3 : (MOCK_WEATHER load).lookup (toUpperStr idA) = none)
    (h4 : MOCK_AIRPORTS.lookup (toUpperStr idA) = none)
    (hr : ¬ r.draw < 1/10) :
    ((aircraftGET (some idA) rs).status = 200 ∧ (aircraftGET (some idA) rs).aircraft = [])
    ∧ (advisoriesGET (MOCK_ADVISORIES load) (some idA) now r).advisories = []
    ∧ weatherGET load (some idA) now =
        WeatherResp.notFound "Weather for specified airport not found" "WEATHER_NOT_FOUND"
    ∧ airportsGET (some idA) = AirportsResp.notFound "Airport not found" "AIRPORT_NOT_FOUND"
    ∧ ((weatherGET load (some "krhv") now).status = 200
       ∧ (airportsGET (some "krhv")).status = 200
       ∧ (aircraftGET (some "krhv") rs).aircraft = []
       ∧ (advisoriesGET (MOCK_ADVISORIES load) (some "krhv") now r).advisories = []) := by
  refine ⟨⟨?_, ?_⟩, ?_, ?_, ?_, ?_, ?_, ?_, ?_⟩
  · simp [aircraftGET, h1]
  · simp [aircraftGET, h1]
  · rw [advisoriesGET_draw_ge _ _ _ _ hr]
    simp [h2]
  · simp only [weatherGET, lookup_map_value, h3]
    rfl
  · simp [airportsGET, h4]
  · rfl
  · rfl
  · rfl
  · rw [advisoriesGET_draw_ge _ _ _ _ hr]
    rfl

/-- C10 witness: the amended statement at the unknown id KXYZ with a
    non-injecting draw. -/
theorem C10_amended_witness :
    (MOCK_AIRCRAFT.lookup "KXYZ" = none
     ∧ (MOCK_ADVISORIES 0).lookup "KXYZ" = none
     ∧ (MOCK_WEATHER 0).lookup (toUpperStr "KXYZ") = none
     ∧ MOCK_AIRPORTS.lookup (toUpperStr "KXYZ") = none
     ∧ ¬ ((⟨1/2, 0, 0⟩ : RandSrc).draw < 1/10))
    ∧ (((aircraftGET (some "KXYZ") (fun _ => (0, 0, 0))).status = 200
        ∧ (aircraftGET (some "KXYZ") (fun _ => (0, 0, 0))).aircraft = [])
       ∧ (advisoriesGET (MOCK_ADVISORIES 0) (some "KXYZ") 0 ⟨1/2, 0, 0⟩).advisories = []
       ∧ weatherGET 0 (some "KXYZ") 0 =
           WeatherResp.notFound "Weather for specified airport not found" "WEATHER_NOT_FOUND"
       ∧ airportsGET (some "KXYZ") =
           AirportsResp.notFound "Airport not found" "AIRPORT_NOT_FOUND"
       ∧ ((weatherGET 0 (some "krhv") 0).status = 200
          ∧ (airportsGET (some "krhv")).status = 200
          ∧ (aircraftGET (some "krhv") (fun _ => (0, 0, 0))).aircraft = []
          ∧ (advisoriesGET (MOCK_ADVISORIES 0) (some "krhv") 0 ⟨1/2, 0, 0⟩).advisories = [])) :=
  ⟨⟨rfl, rfl, rfl, rfl, by norm_num⟩,
   C10_amended_unknown_airport_behavior "KXYZ" 0 0 ⟨1/2, 0, 0⟩ (fun _ => (0, 0, 0))
     rfl rfl rfl rfl (by norm_num)⟩
